import Mathlib

/-!
Shallow embedding of `src/settings.py` from `binaryninja-openai`.

The file registers one settings group (`openai`) and three settings
(`openai.api_key`, `openai.model`, `openai.max_tokens`) against the host
settings store (Binary Ninja's `Settings` API).  Each property dictionary
is a Python dict serialized with `json.dumps`; the host calls
(`register_group`, `register_setting`) return booleans, and construction
raises `RegisterSettingsGroupException` / `RegisterSettingsKeyException`
on the first failure.

We model a property value as a string, a number or a list of strings
(the only shapes occurring in the source), a property dictionary as an
insertion-ordered association list, and the host as an oracle
`Nat → Bool` giving the boolean result of the n-th host call.
Construction is a function from the oracle to the list of host calls
performed (in order, with the exact serialized JSON payloads) together
with the optionally raised error.
-/

/-- A value stored in one of the Python property dictionaries:
a string, an integer, or a list of strings. -/
inductive PropVal where
  | str (s : String)
  | num (n : Nat)
  | strArr (xs : List String)
deriving DecidableEq, Repr

/-- A Python dict literal, as an insertion-ordered association list. -/
def PropDict : Type := List (String × PropVal)

/-- Field lookup in a property dictionary (first binding wins). -/
def getProp (k : String) : List (String × PropVal) → Option PropVal
  | [] => none
  | (k2, v) :: rest => if k2 = k then some v else getProp k rest

/-- JSON string escaping as done by `json.dumps` (only `"` and `\`
occur escaped in the strings of this file; all characters are ASCII). -/
def escapeChar (c : Char) : String :=
  if c = '"' then "\\\"" else if c = '\\' then "\\\\" else String.singleton c

/-- A JSON string literal: quoted, escaped. -/
def escapeString (s : String) : String :=
  "\"" ++ String.join (s.toList.map escapeChar) ++ "\""

/-- Serialization of one property value, per `json.dumps` with the
default separators. -/
def dumpsVal : PropVal → String
  | .str s => escapeString s
  | .num n => toString n
  | .strArr xs => "[" ++ String.intercalate ", " (xs.map escapeString) ++ "]"

/-- `json.dumps` on a property dictionary with the default separators
`(", ", ": ")`, preserving insertion order. -/
def dumps (fields : List (String × PropVal)) : String :=
  "\x7b" ++
    String.intercalate ", "
      (fields.map (fun kv => escapeString kv.1 ++ ": " ++ dumpsVal kv.2)) ++
  "\x7d"

/-- One call made against the host settings store. -/
inductive HostCall where
  | registerGroup (id label : String)
  | registerSetting (key propertiesJson : String)
deriving DecidableEq, Repr

/-- The two exception kinds raised by `OpenAISettings.__init__`,
carrying the exception message. -/
inductive InitError where
  | RegisterSettingsGroupException (msg : String)
  | RegisterSettingsKeyException (msg : String)
deriving DecidableEq, Repr

/-- The fixed instance id passed to `super().__init__`. -/
def instance_id : String := "default"

namespace OpenAISettings

/-- The `properties` dict of `register_api_key_settings`.  In the source
the description is two adjacent Python string literals, which concatenate. -/
def api_key_properties : List (String × PropVal) :=
  [ ("title", .str "OpenAI API Key"),
    ("type", .str "string"),
    ("description", .str ("The user\x27s OpenAI API key used to make requests "
      ++ "the server.")) ]

/-- The `properties` dict of `register_model_settings`.  The fifth entry
of `enumDescriptions` in the source lacks a trailing comma, so Python
string-literal adjacency concatenates it with the sixth entry; the list
below reproduces that faithfully. -/
def model_properties : List (String × PropVal) :=
  [ ("title", .str "OpenAI Model"),
    ("type", .str "string"),
    ("description", .str "The OpenAI model used to generate the response."),
    ("enum", .strArr
      [ "gpt-4",
        "gpt-4-32k",
        "gpt-3.5-turbo",
        "text-davinci-003",
        "text-davinci-002",
        "text-curie-001",
        "text-babbage-001",
        "text-babbage-002",
        "code-davinci-002",
        "code-cushman-001" ]),
    ("enumDescriptions", .strArr
      [ "More capable than any GPT-3.5 model, able to do more complex tasks, and optimized for chat. Will be updated with our latest model iteration.",
        "Same capabilities as the base gpt-4 mode but with 4x the context length. Will be updated with our latest model iteration.",
        "Most capable GPT-3.5 model and optimized for chat at 1/10th the cost of text-davinci-003. Will be updated with our latest model iteration.",
        "Can do any language task with better quality, longer output, and consistent instruction-following than the curie, babbage, or ada models.",
        "Similar capabilities to text-davinci-003 but trained with supervised fine-tuning instead of reinforcement learning"
          ++ "Very capable, but faster and lower cost than Davinci.",
        "Capable of straightforward tasks, very fast, and lower cost.",
        "Capable of very simple tasks, usually the fastest model in the GPT-3 series, and lowest cost.",
        "Most capable Codex model. Particularly good at translating natural language to code. In addition to completing code, also supports inserting completions within code.",
        "Almost as capable as Davinci Codex, but slightly faster. This speed advantage may make it preferable for real-time applications." ]),
    ("default", .str "gpt-3.5-turbo") ]

/-- The `properties` dict of `register_max_tokens`. -/
def max_tokens_properties : List (String × PropVal) :=
  [ ("title", .str "OpenAI Max Completion Tokens"),
    ("type", .str "number"),
    ("description", .str "The maximum number of tokens used for completion. Tokens do not necessarily align with word or instruction count. Typically, each token is four characters. If your function is very large, you may need to decrease this value, as the number of tokens in your prompt counts against the total number of tokens supported by the model. Not all models support the same number of maximum tokens; most support 2,048 tokens. For larger functions, check out text-davinci-003 and code-davinci-002 which support 4,000 and 8,000 respectively. For the maximum amount of tokens, check out gpt-4-32k which supports up to 32,768 tokens. This may be costly, however."),
    ("default", .num 1024),
    ("minValue", .num 1),
    ("maxValue", .num 32768),
    ("message", .str "Min: 1, Max: 32,768") ]

/-- The host call made by `register_api_key_settings`:
`self.register_setting('openai.api_key', json.dumps(properties))`. -/
def register_api_key_settings : HostCall :=
  HostCall.registerSetting "openai.api_key" (dumps api_key_properties)

/-- The host call made by `register_model_settings`:
`self.register_setting('openai.model', json.dumps(properties))`. -/
def register_model_settings : HostCall :=
  HostCall.registerSetting "openai.model" (dumps model_properties)

/-- The host call made by `register_max_tokens`:
`self.register_setting('openai.max_tokens', json.dumps(properties))`. -/
def register_max_tokens : HostCall :=
  HostCall.registerSetting "openai.max_tokens" (dumps max_tokens_properties)

/-- The group-registration call `self.register_group('openai', 'OpenAI')`. -/
def register_group_call : HostCall :=
  HostCall.registerGroup "openai" "OpenAI"

/-- `OpenAISettings.__init__`: the linear registration sequence.  `host n`
is the boolean returned by the host store to the n-th registration call.
The result is the ordered list of host calls performed and the raised
exception, if any (`none` means construction returned normally).
Exception messages reproduce the source's adjacent-string-literal
concatenations. -/
def init (host : Nat → Bool) : List HostCall × Option InitError :=
  if host 0 = false then
    ([register_group_call],
     some (InitError.RegisterSettingsGroupException
       "Failed to register OpenAI settings group."))
  else if host 1 = false then
    ([register_group_call, register_api_key_settings],
     some (InitError.RegisterSettingsKeyException
       "Failed to register OpenAI API key settings."))
  else if host 2 = false then
    ([register_group_call, register_api_key_settings, register_model_settings],
     some (InitError.RegisterSettingsKeyException
       "Failed to register OpenAI model settings."))
  else if host 3 = false then
    ([register_group_call, register_api_key_settings, register_model_settings,
      register_max_tokens],
     some (InitError.RegisterSettingsKeyException
       "Failed to register OpenAI max tokens settings."))
  else
    ([register_group_call, register_api_key_settings, register_model_settings,
      register_max_tokens],
     none)

end OpenAISettings

/-- Key of a host call (group id, or setting key). -/
def HostCall.callKey : HostCall → String
  | .registerGroup id _ => id
  | .registerSetting k _ => k

/-- C1: the source registers 10 `enum` entries for `openai.model` but
only 9 `enumDescriptions` entries (the fifth and sixth descriptions are
merged by string-literal adjacency), so the two lists do NOT have equal
length: the claimed invariant is violated by the code. -/
theorem model_enum_enumDescriptions_length_mismatch :
    ∃ xs ys,
      getProp "enum" OpenAISettings.model_properties = some (PropVal.strArr xs) ∧
      getProp "enumDescriptions" OpenAISettings.model_properties =
        some (PropVal.strArr ys) ∧
      xs.length = 10 ∧ ys.length = 9 ∧ xs.length ≠ ys.length :=
  ⟨_, _, rfl, rfl, rfl, rfl, by decide⟩

/-- C2: the `enum` list registered for `openai.model` is exactly, in
order: gpt-4, gpt-4-32k, gpt-3.5-turbo, text-davinci-003,
text-davinci-002, text-curie-001, text-babbage-001, text-babbage-002,
code-davinci-002, code-cushman-001. -/
theorem model_enum_exact :
    getProp "enum" OpenAISettings.model_properties =
      some (PropVal.strArr
        [ "gpt-4",
          "gpt-4-32k",
          "gpt-3.5-turbo",
          "text-davinci-003",
          "text-davinci-002",
          "text-curie-001",
          "text-babbage-001",
          "text-babbage-002",
          "code-davinci-002",
          "code-cushman-001" ]) := rfl

/-- C3: the `default` registered for `openai.model` is `gpt-3.5-turbo`,
and that value is a member of the setting's own `enum` list. -/
theorem model_default_in_enum :
    getProp "default" OpenAISettings.model_properties =
      some (PropVal.str "gpt-3.5-turbo") ∧
    ∃ xs, getProp "enum" OpenAISettings.model_properties =
        some (PropVal.strArr xs) ∧ "gpt-3.5-turbo" ∈ xs :=
  ⟨rfl, _, rfl, by decide⟩

/-- C4: the properties registered for `openai.max_tokens` have type
`number`, default 1024, inclusive bounds minValue 1 and maxValue 32768,
and validation message "Min: 1, Max: 32,768"; the default lies within
the bounds. -/
theorem max_tokens_fields :
    getProp "type" OpenAISettings.max_tokens_properties =
      some (PropVal.str "number") ∧
    getProp "default" OpenAISettings.max_tokens_properties =
      some (PropVal.num 1024) ∧
    getProp "minValue" OpenAISettings.max_tokens_properties =
      some (PropVal.num 1) ∧
    getProp "maxValue" OpenAISettings.max_tokens_properties =
      some (PropVal.num 32768) ∧
    getProp "message" OpenAISettings.max_tokens_properties =
      some (PropVal.str "Min: 1, Max: 32,768") ∧
    1 ≤ 1024 ∧ 1024 ≤ 32768 :=
  ⟨rfl, rfl, rfl, rfl, rfl, by decide, by decide⟩

/-- C8: the key string passed to the host's `register_setting` call is
the group-qualified dotted name for each of the three settings:
`openai.api_key`, `openai.model`, `openai.max_tokens`. -/
theorem registered_setting_keys :
    OpenAISettings.register_api_key_settings.callKey = "openai.api_key" ∧
    OpenAISettings.register_model_settings.callKey = "openai.model" ∧
    OpenAISettings.register_max_tokens.callKey = "openai.max_tokens" :=
  ⟨rfl, rfl, rfl⟩

/-- C5: whenever the group-registration call returns failure,
construction raises `RegisterSettingsGroupException` (the spec's
`GroupRegistrationError`), the trace is just the group call, and no
setting-key registration call is ever attempted. -/
theorem init_group_failure (host : Nat → Bool) (h : host 0 = false) :
    OpenAISettings.init host =
      ([OpenAISettings.register_group_call],
       some (InitError.RegisterSettingsGroupException
         "Failed to register OpenAI settings group.")) ∧
    ∀ c ∈ (OpenAISettings.init host).1,
      ∀ k p, c ≠ HostCall.registerSetting k p := by
  refine ⟨by simp [OpenAISettings.init, h], ?_⟩
  simp [OpenAISettings.init, h, OpenAISettings.register_group_call]

/-- Witness for C5: the group-failing host. -/
theorem init_group_failure_witness :
    OpenAISettings.init (fun _ => false) =
      ([OpenAISettings.register_group_call],
       some (InitError.RegisterSettingsGroupException
         "Failed to register OpenAI settings group.")) ∧
    ∀ c ∈ (OpenAISettings.init (fun _ => false)).1,
      ∀ k p, c ≠ HostCall.registerSetting k p :=
  init_group_failure (fun _ => false) rfl

/-- C6: when group registration succeeds and the api_key registration
fails, construction raises `RegisterSettingsKeyException` (the spec's
`KeyRegistrationError`) whose message names "API key", and the model
and max-tokens registration calls are never invoked. -/
theorem init_api_key_failure (host : Nat → Bool)
    (h0 : host 0 = true) (h1 : host 1 = false) :
    OpenAISettings.init host =
      ([OpenAISettings.register_group_call,
        OpenAISettings.register_api_key_settings],
       some (InitError.RegisterSettingsKeyException
         "Failed to register OpenAI API key settings.")) ∧
    "Failed to register OpenAI API key settings."
      = "Failed to register OpenAI " ++ "API key" ++ " settings." ∧
    OpenAISettings.register_model_settings ∉ (OpenAISettings.init host).1 ∧
    OpenAISettings.register_max_tokens ∉ (OpenAISettings.init host).1 := by
  refine ⟨by simp [OpenAISettings.init, h0, h1], by decide, ?_, ?_⟩ <;>
    simp [OpenAISettings.init, h0, h1, OpenAISettings.register_group_call,
      OpenAISettings.register_api_key_settings,
      OpenAISettings.register_model_settings,
      OpenAISettings.register_max_tokens]

/-- Witness for C6: group succeeds, api_key fails. -/
theorem init_api_key_failure_witness :
    OpenAISettings.init (fun n => decide (n < 1)) =
      ([OpenAISettings.register_group_call,
        OpenAISettings.register_api_key_settings],
       some (InitError.RegisterSettingsKeyException
         "Failed to register OpenAI API key settings.")) ∧
    "Failed to register OpenAI API key settings."
      = "Failed to register OpenAI " ++ "API key" ++ " settings." ∧
    OpenAISettings.register_model_settings ∉
      (OpenAISettings.init (fun n => decide (n < 1))).1 ∧
    OpenAISettings.register_max_tokens ∉
      (OpenAISettings.init (fun n => decide (n < 1))).1 :=
  init_api_key_failure (fun n => decide (n < 1)) rfl rfl

/-- C7: when every host call succeeds, construction returns without
raising and the trace is exactly the four registration calls, once
each, in the order group, api_key, model, max_tokens. -/
theorem init_success (host : Nat → Bool)
    (h0 : host 0 = true) (h1 : host 1 = true)
    (h2 : host 2 = true) (h3 : host 3 = true) :
    OpenAISettings.init host =
      ([OpenAISettings.register_group_call,
        OpenAISettings.register_api_key_settings,
        OpenAISettings.register_model_settings,
        OpenAISettings.register_max_tokens], none) ∧
    (OpenAISettings.init host).1.Nodup := by
  refine ⟨by simp [OpenAISettings.init, h0, h1, h2, h3], ?_⟩
  simp [OpenAISettings.init, h0, h1, h2, h3,
    OpenAISettings.register_group_call,
    OpenAISettings.register_api_key_settings,
    OpenAISettings.register_model_settings,
    OpenAISettings.register_max_tokens]

/-- Witness for C7: the all-success host. -/
theorem init_success_witness :
    OpenAISettings.init (fun _ => true) =
      ([OpenAISettings.register_group_call,
        OpenAISettings.register_api_key_settings,
        OpenAISettings.register_model_settings,
        OpenAISettings.register_max_tokens], none) ∧
    (OpenAISettings.init (fun _ => true)).1.Nodup :=
  init_success (fun _ => true) rfl rfl rfl rfl

/-- C9: a failing registration step aborts construction immediately:
when the model step is the first to fail the raised
`RegisterSettingsKeyException` names "model" and nothing is called
after the failing call; when the max-tokens step is the first to fail
the exception names "max tokens"; and for every host the trace never
repeats a registration call (no retries). -/
theorem init_failure_aborts (host : Nat → Bool) :
    (OpenAISettings.init host).1.Nodup ∧
    (host 0 = true → host 1 = true → host 2 = false →
      OpenAISettings.init host =
        ([OpenAISettings.register_group_call,
          OpenAISettings.register_api_key_settings,
          OpenAISettings.register_model_settings],
         some (InitError.RegisterSettingsKeyException
           "Failed to register OpenAI model settings."))) ∧
    ("Failed to register OpenAI model settings."
       = "Failed to register OpenAI " ++ "model" ++ " settings.") ∧
    (host 0 = true → host 1 = true → host 2 = true → host 3 = false →
      OpenAISettings.init host =
        ([OpenAISettings.register_group_call,
          OpenAISettings.register_api_key_settings,
          OpenAISettings.register_model_settings,
          OpenAISettings.register_max_tokens],
         some (InitError.RegisterSettingsKeyException
           "Failed to register OpenAI max tokens settings."))) ∧
    ("Failed to register OpenAI max tokens settings."
       = "Failed to register OpenAI " ++ "max tokens" ++ " settings.") := by
  refine ⟨?_, ?_, by decide, ?_, by decide⟩
  · cases h0 : host 0 <;> cases h1 : host 1 <;> cases h2 : host 2 <;>
      cases h3 : host 3 <;>
      simp [OpenAISettings.init, h0, h1, h2, h3,
        OpenAISettings.register_group_call,
        OpenAISettings.register_api_key_settings,
        OpenAISettings.register_model_settings,
        OpenAISettings.register_max_tokens]
  · intro h0 h1 h2
    simp [OpenAISettings.init, h0, h1, h2]
  · intro h0 h1 h2 h3
    simp [OpenAISettings.init, h0, h1, h2, h3]

/-- Witness for C9: at the host that fails the model step first, the
trace stops at the model call with the "model" exception. -/
theorem init_failure_aborts_witness :
    OpenAISettings.init (fun n => decide (n < 2)) =
      ([OpenAISettings.register_group_call,
        OpenAISettings.register_api_key_settings,
        OpenAISettings.register_model_settings],
       some (InitError.RegisterSettingsKeyException
         "Failed to register OpenAI model settings.")) :=
  (init_failure_aborts (fun n => decide (n < 2))).2.1 rfl rfl rfl

/-- C10: construction is deterministic with respect to the host: two
runs whose host stores answer the first four calls with the same
booleans perform the identical call sequence (same keys and same
serialized JSON payloads) and raise identically. -/
theorem init_deterministic (g1 g2 : Nat → Bool)
    (h : ∀ n, n < 4 → g1 n = g2 n) :
    OpenAISettings.init g1 = OpenAISettings.init g2 := by
  have e0 := h 0 (by decide)
  have e1 := h 1 (by decide)
  have e2 := h 2 (by decide)
  have e3 := h 3 (by decide)
  simp only [OpenAISettings.init, e0, e1, e2, e3]

/-- Witness for C10: two hosts agreeing on the first four answers but
differing afterwards yield identical runs. -/
theorem init_deterministic_witness :
    OpenAISettings.init (fun _ => true) =
      OpenAISettings.init (fun n => decide (n < 4)) :=
  init_deterministic (fun _ => true) (fun n => decide (n < 4))
    (fun _ hn => (decide_eq_true hn).symm)
